import Mathlib

/-!
# Verification of the librb GnuTLS transport layer (src/librb/src/gnutls.c)

This file gives a shallow embedding of the asynchronous TLS session
lifecycle driver of librb's GnuTLS backend and proves properties of it.

The underlying cryptographic engine (GnuTLS) and the event loop's
readiness/timer primitives are external collaborators.  Their observable
responses are supplied as explicit inputs: each call to `gnutls_handshake`
consumes one `EngineStep` from an ambient step stream, record-layer
transfers take an `RwStep`, and the credential-setup and fingerprint
engine calls take environment records describing their outcomes.  The
event loop is modelled from the spec's external-interface contract:
readiness continuations and timers are one-shot (the continuation is
invoked once and must be re-registered for further waiting).

State mutations of the file-descriptor structure (`rb_fde_t`), the
callback invocations delivered to the caller, and dereferences of absent
(NULL) pointers are all made explicit; the latter set a `crashed` flag
after which the model takes no further step.
-/

/-- GnuTLS error code `GNUTLS_E_AGAIN`. -/
def GNUTLS_E_AGAIN : Int := -28

/-- GnuTLS error code `GNUTLS_E_INTERRUPTED`. -/
def GNUTLS_E_INTERRUPTED : Int := -52

/-- GnuTLS error code `GNUTLS_E_SHORT_MEMORY_BUFFER`. -/
def GNUTLS_E_SHORT_MEMORY_BUFFER : Int := -51

/-- One engine response to a `gnutls_handshake` call: the return value,
the record direction that `gnutls_record_get_direction` would report,
and whether `rb_ignore_errno(errno)` holds at that moment. -/
structure EngineStep where
  ret : Int
  dir : Nat
  ign : Bool
deriving DecidableEq

/-- The readiness direction passed to `rb_setselect`
(`RB_SELECT_READ` or `RB_SELECT_WRITE`). -/
inductive SelFlag
  | read
  | write
deriving DecidableEq

/-- Completion statuses delivered to accept callbacks.  Modelled from the
spec (the numeric values live in librb headers not present under src/;
only their distinctness matters here). -/
inductive RbStatus
  | ok
  | errorSsl
  | errTimeout
deriving DecidableEq

/-- The `struct acceptdata` attached to a session: the peer-address
buffer `S` is abstracted to its recorded length `addrlen` (the callback
always receives the address of `S`; `addrlen` says how many bytes were
copied into it). -/
structure AcceptData where
  addrlen : Nat
deriving DecidableEq

/-- One observed invocation of the stored accept completion callback:
its status, and `some n` when the pointer to the stored peer address was
passed with address length `n` (`none` when NULL was passed). -/
structure CbEvent where
  status : RbStatus
  addr : Option Nat
deriving DecidableEq

/-- The observable per-descriptor state of an `rb_fde_t` as used by the
accept flow: the `RB_FD_SSL` type bit, whether `F->ssl` holds an engine
session, whether `gnutls_priority_set` applied the configured priority to
that session, the `F->accept` context, the stored `ssl_errno`, whether a
timeout (with handler `rb_ssl_timeout`) is armed, and the current
readiness registration. -/
structure FdState where
  typeSsl : Bool
  ssl : Bool
  sslPriority : Bool
  accept : Option AcceptData
  ssl_errno : Int
  timerArmed : Bool
  select : Option SelFlag
deriving DecidableEq

/-- A fresh descriptor state. -/
def initFd : FdState :=
  { typeSsl := false, ssl := false, sslPriority := false, accept := none,
    ssl_errno := 0, timerArmed := false, select := none }

/-- The world of a single-descriptor accept flow: the descriptor, the
ambient stream of engine handshake responses (`steps i` is consumed by
the `i`-th `gnutls_handshake` call), how many have been consumed, the
trace of completion-callback invocations, and the crash flag. -/
structure World where
  fd : FdState
  steps : Nat → EngineStep
  idx : Nat
  trace : List CbEvent
  crashed : Bool

/-- The would-block classification used by `do_ssl_handshake`:
`(ret == GNUTLS_E_INTERRUPTED && rb_ignore_errno(errno)) || ret == GNUTLS_E_AGAIN`. -/
def IsWB (s : EngineStep) : Prop :=
  (s.ret = GNUTLS_E_INTERRUPTED ∧ s.ign = true) ∨ s.ret = GNUTLS_E_AGAIN

instance (s : EngineStep) : Decidable (IsWB s) :=
  inferInstanceAs (Decidable ((s.ret = GNUTLS_E_INTERRUPTED ∧ s.ign = true) ∨ s.ret = GNUTLS_E_AGAIN))

/-- Direction selection of `do_ssl_handshake` and `rb_ssl_read_or_write`:
record direction 0 selects read readiness, anything else write. -/
def dirFlag (dir : Nat) : SelFlag :=
  if dir = 0 then SelFlag.read else SelFlag.write

/-- Core of `do_ssl_handshake` (gnutls.c lines 96-118), given the engine
response `s` to this `gnutls_handshake` call.  Returns the C return
value (0 would-block, -1 failure, 1 finished) and the updated descriptor
state.  On would-block it registers readiness (`rb_setselect`) on the
direction the engine reports; on any other negative code it stores the
code in `ssl_errno`. -/
def do_ssl_handshake1 (fd : FdState) (s : EngineStep) : Int × FdState :=
  if s.ret < 0 then
    if IsWB s then
      (0, { fd with select := some (dirFlag s.dir) })
    else
      (-1, { fd with ssl_errno := s.ret })
  else
    (1, fd)

/-- `do_ssl_handshake` lifted to a `World`: it dereferences `F->ssl`
(crash when absent) and consumes the next engine step.  The continuation
registered with `rb_setselect` in the accept flow is always
`rb_ssl_tryaccept`; the registration is recorded in `fd.select`. -/
def do_ssl_handshake (w : World) : Int × World :=
  if w.crashed then (0, w)
  else if w.fd.ssl = false then (0, { w with crashed := true })
  else
    let r := do_ssl_handshake1 w.fd (w.steps w.idx)
    (r.1, { w with fd := r.2, idx := w.idx + 1 })

/-- `rb_ssl_timeout` (gnutls.c lines 88-93): asserts `F->accept` is
non-NULL and invokes the stored callback with `RB_ERR_TIMEOUT` and a
NULL address.  It does not clear `F->accept`, the readiness
registration, or anything else. -/
def rb_ssl_timeout (w : World) : World :=
  if w.crashed then w
  else
    match w.fd.accept with
    | none => { w with crashed := true }
    | some _ => { w with trace := w.trace ++ [⟨RbStatus.errTimeout, none⟩] }

/-- `rb_ssl_tryaccept` (gnutls.c lines 120-145): asserts `F->accept`,
drives one handshake step; on would-block returns (readiness was
re-registered inside `do_ssl_handshake`); otherwise it clears
`F->accept`, cancels the timeout, clears the readiness registration,
invokes the callback (`RB_OK` with the stored address on success,
`RB_ERROR_SSL` with NULL on failure) and frees the context. -/
def rb_ssl_tryaccept (w : World) : World :=
  if w.crashed then w
  else
    match w.fd.accept with
    | none => { w with crashed := true }
    | some ad =>
      let r := do_ssl_handshake w
      if r.2.crashed then r.2
      else if r.1 = 0 then r.2
      else
        let fd := { r.2.fd with accept := none, timerArmed := false, select := none }
        let ev :=
          if 0 < r.1 then CbEvent.mk RbStatus.ok (some ad.addrlen)
          else CbEvent.mk RbStatus.errorSsl none
        { r.2 with fd := fd, trace := r.2.trace ++ [ev] }

/-- `rb_ssl_start_accepted` (gnutls.c lines 147-177): marks the
descriptor as SSL, allocates the engine session and the accept context
(with `addrlen = 0`), arms the timeout with handler `rb_ssl_timeout`,
configures the session (including `gnutls_priority_set` with the
configured priority) and drives the first handshake step.  The C code
tests `if(do_ssl_handshake(...))`, so both the finished (1) and the
failed (-1) return enter the completion branch, which consumes the
context and invokes the callback with `RB_OK` and the stored address —
without cancelling the timer or touching the readiness registration. -/
def rb_ssl_start_accepted (w : World) : World :=
  if w.crashed then w
  else
    let fd0 := { w.fd with
      typeSsl := true, ssl := true, sslPriority := true,
      accept := some ⟨0⟩, timerArmed := true }
    let r := do_ssl_handshake { w with fd := fd0 }
    if r.2.crashed then r.2
    else if r.1 ≠ 0 then
      match r.2.fd.accept with
      | none => { r.2 with crashed := true }
      | some ad =>
        { r.2 with
          fd := { r.2.fd with accept := none },
          trace := r.2.trace ++ [⟨RbStatus.ok, some ad.addrlen⟩] }
    else r.2

/-- External events delivered by the event loop to the accept flow:
a readiness notification for the registered direction, or expiry of the
armed timeout. -/
inductive Ev
  | ready
  | timerFire
deriving DecidableEq

/-- Event dispatch, modelled from the spec's external-interface
contract: a readiness continuation is one-shot (cleared before it runs,
the callee must re-register), and so is the timer.  A readiness event
with no registration, or a timer event with no armed timer, is a no-op.
The only readiness continuation the accept flow registers is
`rb_ssl_tryaccept`, and the only timer handler is `rb_ssl_timeout`. -/
def stepEv (w : World) (e : Ev) : World :=
  match e with
  | Ev.ready =>
    if w.crashed then w
    else
      match w.fd.select with
      | some _ => rb_ssl_tryaccept { w with fd := { w.fd with select := none } }
      | none => w
  | Ev.timerFire =>
    if w.crashed then w
    else if w.fd.timerArmed then
      rb_ssl_timeout { w with fd := { w.fd with timerArmed := false } }
    else w

/-- Process a list of external events in order. -/
def run (w : World) : List Ev → World
  | [] => w
  | e :: es => run (stepEv w e) es

/-- Fresh world for a server-side session about to be started, with
engine response stream `steps`. -/
def startWorld (steps : Nat → EngineStep) : World :=
  { fd := initFd, steps := steps, idx := 0, trace := [], crashed := false }

/-- A full accept-flow execution: `rb_ssl_start_accepted` on a fresh
descriptor, followed by the given external events. -/
def accRun (steps : Nat → EngineStep) (evs : List Ev) : World :=
  run (rb_ssl_start_accepted (startWorld steps)) evs

/-- The world of `rb_ssl_accept_setup`, which involves two descriptors:
the listening descriptor `F` (whose accept context holds the caller's
accept callback) and the freshly accepted descriptor `newF`. -/
structure World2 where
  F : FdState
  newF : FdState
  steps : Nat → EngineStep
  idx : Nat
  trace : List CbEvent
  crashed : Bool

/-- `rb_ssl_accept_setup` (gnutls.c lines 182-210), transcribed
statement by statement.  Lines 185-200 prepare `new_F`: set the SSL type
bit, allocate the engine session and accept context (copying the
callback and data out of `F->accept`, and `addrlen` bytes of the peer
address), arm the 10-second timeout on `new_F`, and configure the new
session.  Lines 201-208 then operate on `F`, not `new_F`:
`gnutls_priority_set(SSL_P(F), ...)` dereferences the listener's
(absent) `F->ssl`, `do_ssl_handshake(F, ...)` drives a handshake on `F`,
and the completion branch consumes `F->accept`. -/
def rb_ssl_accept_setup (addrlen : Nat) (w : World2) : World2 :=
  if w.crashed then w
  else
    match w.F.accept with
    | none => { w with crashed := true }
    | some _fad =>
      let newF := { w.newF with
        typeSsl := true, ssl := true,
        accept := some ⟨addrlen⟩, timerArmed := true }
      if w.F.ssl = false then { w with newF := newF, crashed := true }
      else
        let F1 := { w.F with sslPriority := true }
        let r := do_ssl_handshake1 F1 (w.steps w.idx)
        let w1 := { w with F := r.2, newF := newF, idx := w.idx + 1 }
        if r.1 ≠ 0 then
          match w1.F.accept with
          | none => { w1 with crashed := true }
          | some ad =>
            { w1 with
              F := { w1.F with accept := none },
              trace := w1.trace ++ [⟨RbStatus.ok, some ad.addrlen⟩] }
        else w1

/-- Sentinel result codes of the librb non-blocking read/write contract.
Modelled from the spec: the numeric values live in librb headers not
present under src/; they are distinct negative sentinels. -/
def RB_RW_IO_ERROR : Int := -1

/-- See `RB_RW_IO_ERROR`. -/
def RB_RW_SSL_NEED_READ : Int := -3

/-- See `RB_RW_IO_ERROR`. -/
def RB_RW_SSL_NEED_WRITE : Int := -4

/-- One engine response to a `gnutls_record_recv`/`gnutls_record_send`
call: the returned count or error code, the record direction
`gnutls_record_get_direction` would report, and whether
`rb_ignore_errno(errno)` holds. -/
structure RwStep where
  ret : Int
  dir : Nat
  ign : Bool
deriving DecidableEq

/-- `rb_ssl_read_or_write` (gnutls.c lines 215-247): delegates to the
engine record layer (`r_or_w = 0` reads, otherwise writes; the engine's
response is `s`).  A negative result enters a switch in which the
`GNUTLS_E_AGAIN` and `GNUTLS_E_INTERRUPTED` cases check
`rb_ignore_errno(errno)` and, when it holds, map to
`RB_RW_SSL_NEED_READ`/`RB_RW_SSL_NEED_WRITE` by the reported record
direction; otherwise control falls through to the default case, which
stores the code in `ssl_errno`, sets `errno = EIO`, and returns
`RB_RW_IO_ERROR`.  A non-negative result is returned unchanged. -/
def rb_ssl_read_or_write (r_or_w : Nat) (fd : FdState) (s : RwStep) : Int × FdState :=
  if s.ret < 0 then
    if s.ret = GNUTLS_E_AGAIN ∨ s.ret = GNUTLS_E_INTERRUPTED then
      if s.ign then
        (if s.dir = 0 then RB_RW_SSL_NEED_READ else RB_RW_SSL_NEED_WRITE, fd)
      else
        (RB_RW_IO_ERROR, { fd with ssl_errno := s.ret })
    else
      (RB_RW_IO_ERROR, { fd with ssl_errno := s.ret })
  else
    (s.ret, fd)

/-- `rb_ssl_read` (gnutls.c lines 249-253). -/
def rb_ssl_read (fd : FdState) (s : RwStep) : Int × FdState :=
  rb_ssl_read_or_write 0 fd s

/-- `rb_ssl_write` (gnutls.c lines 255-259). -/
def rb_ssl_write (fd : FdState) (s : RwStep) : Int × FdState :=
  rb_ssl_read_or_write 1 fd s

/-- Fixed capacity of the certificate chain array (gnutls.c line 47). -/
def MAX_CERTS : Nat := 6

/-- State of the process-wide `x509_key` handle. -/
inductive KeyState
  | unset
  | initEmpty
  | imported
deriving DecidableEq

/-- State of the process-wide `default_priority` handle. -/
inductive PrioritySetting
  | unset
  | fromCipherList
  | builtinDefault
deriving DecidableEq

/-- The process-wide Credential Store: the forced-identity key handle
`x509_key`, the chain-count variable `x509_cert_count`, whether the
chain array `x509_cert` holds an imported chain, whether the chain/key
pair was installed into the `x509` credentials, whether DH parameters
were attached, and the `default_priority` handle. -/
structure CredStore where
  x509_key : KeyState
  x509_cert_count : Nat
  chainImported : Bool
  pairSet : Bool
  dhSet : Bool
  priority : PrioritySetting
deriving DecidableEq

/-- A Credential Store before any setup. -/
def initStore : CredStore :=
  { x509_key := KeyState.unset, x509_cert_count := 0, chainImported := false,
    pairSet := false, dhSet := false, priority := PrioritySetting.unset }

/-- Outcomes of the external calls made by `rb_setup_ssl_server`:
whether each file argument was given and loads, whether the engine
parses the key, how many certificate entries the PEM chain contains,
and whether the pair install, the DH calls, and the cipher-priority
parse succeed. -/
structure SetupEnv where
  certGiven : Bool
  certLoadOk : Bool
  keyLoadOk : Bool
  keyImportOk : Bool
  certEntries : Nat
  pairSetOk : Bool
  dhfileGiven : Bool
  dhInitOk : Bool
  dhLoadOk : Bool
  dhImportOk : Bool
  priorityParseOk : Bool
deriving DecidableEq

/-- The diagnostic messages `rb_setup_ssl_server` can emit via
`rb_lib_log`, one tag per call site. -/
inductive LogTag
  | noCertFile
  | certLoadErr
  | keyLoadErr
  | keyImportErr
  | chainImportErr
  | pairSetErr
  | dhParseErr
  | dhSetupErr
  | cipherSyntaxErr
deriving DecidableEq

/-- Modelled from the spec: `gnutls_x509_crt_list_import` with
`GNUTLS_X509_CRT_LIST_IMPORT_FAIL_IF_EXCEED` fails (negative return)
when the source holds more entries than the supplied capacity, and
otherwise returns the number of entries imported (capacity exceeded is
explicit, never silently truncated). -/
def crt_list_import (entries capacity : Nat) : Int :=
  if capacity < entries then GNUTLS_E_SHORT_MEMORY_BUFFER else (entries : Int)

/-- `rb_setup_ssl_server` (gnutls.c lines 363-450), transcribed in
order: NULL-certificate check; certificate and key file loads; key
handle init and key import (the import happens before any chain
processing); `x509_cert_count = MAX_CERTS` followed by the chain import
with `FAIL_IF_EXCEED` (on failure the function returns with the count
still at `MAX_CERTS`); chain/key pair install; the optional DH block
(`gnutls_certificate_set_dh_params` is called whenever the DH handle
init succeeded, even when the file load or the PKCS#3 import failed,
which only logs); and the cipher-priority init, whose parse failure
logs, re-inits from the engine's built-in default (NULL priority
string), and still returns 1.  Returns the C return value, the updated
store, and the log messages emitted. -/
def rb_setup_ssl_server (env : SetupEnv) (st : CredStore) : Int × CredStore × List LogTag :=
  if env.certGiven = false then (0, st, [LogTag.noCertFile])
  else if env.certLoadOk = false then (0, st, [LogTag.certLoadErr])
  else if env.keyLoadOk = false then (0, st, [LogTag.keyLoadErr])
  else
    let st1 := { st with x509_key := KeyState.initEmpty }
    if env.keyImportOk = false then (0, st1, [LogTag.keyImportErr])
    else
      let st2 := { st1 with x509_key := KeyState.imported, x509_cert_count := MAX_CERTS }
      let r := crt_list_import env.certEntries MAX_CERTS
      if r < 0 then (0, st2, [LogTag.chainImportErr])
      else
        let st3 := { st2 with x509_cert_count := r.toNat, chainImported := true }
        if env.pairSetOk = false then (0, st3, [LogTag.pairSetErr])
        else
          let st4 := { st3 with pairSet := true }
          let dh : CredStore × List LogTag :=
            if env.dhfileGiven then
              if env.dhInitOk then
                if env.dhLoadOk then
                  if env.dhImportOk then ({ st4 with dhSet := true }, [])
                  else ({ st4 with dhSet := true }, [LogTag.dhParseErr])
                else ({ st4 with dhSet := true }, [])
              else (st4, [LogTag.dhSetupErr])
            else (st4, [])
          if env.priorityParseOk then
            (1, { dh.1 with priority := PrioritySetting.fromCipherList }, dh.2)
          else
            (1, { dh.1 with priority := PrioritySetting.builtinDefault },
             dh.2 ++ [LogTag.cipherSyntaxErr])

/-- Digest algorithms used by the fingerprint extractor. -/
inductive DigAlgo
  | sha1
  | sha256
  | sha512
deriving DecidableEq

/-- Fingerprint method constant `RB_SSL_CERTFP_METH_CERT_SHA1`.
Modelled from the spec: the numeric values of the five method constants
live in librb headers not present under src/; only their distinctness
matters here. -/
def RB_SSL_CERTFP_METH_CERT_SHA1 : Int := 0

/-- See `RB_SSL_CERTFP_METH_CERT_SHA1`. -/
def RB_SSL_CERTFP_METH_CERT_SHA256 : Int := 1

/-- See `RB_SSL_CERTFP_METH_CERT_SHA1`. -/
def RB_SSL_CERTFP_METH_CERT_SHA512 : Int := 2

/-- See `RB_SSL_CERTFP_METH_CERT_SHA1`. -/
def RB_SSL_CERTFP_METH_SPKI_SHA256 : Int := 3

/-- See `RB_SSL_CERTFP_METH_CERT_SHA1`. -/
def RB_SSL_CERTFP_METH_SPKI_SHA512 : Int := 4

/-- Fingerprint length constant `RB_SSL_CERTFP_LEN_SHA1`.  Modelled from
the spec: each method has the fixed output length of its digest
(SHA-1 is 20 bytes). -/
def RB_SSL_CERTFP_LEN_SHA1 : Nat := 20

/-- SHA-256 digest length (see `RB_SSL_CERTFP_LEN_SHA1`). -/
def RB_SSL_CERTFP_LEN_SHA256 : Nat := 32

/-- SHA-512 digest length (see `RB_SSL_CERTFP_LEN_SHA1`). -/
def RB_SSL_CERTFP_LEN_SHA512 : Nat := 64

/-- The engine operations `make_certfp` depends on, as deterministic
response maps.  A certificate is identified with its byte content
(`List Nat`).  `crtFingerprint` is `gnutls_x509_crt_get_fingerprint`
(`none` models a negative return); `pubkeyInitOk`, `pubkeyImportOk` and
`pubkeyExport` model the `gnutls_pubkey_init` / `_import_x509` /
`_export` chain (`pubkeyExport cert = some der` when the short-buffer
probe and the filling export both succeed); `hashFast` is
`gnutls_hash_fast` (`none` models a nonzero return). -/
structure CertEngine where
  crtFingerprint : List Nat → DigAlgo → Option (List Nat)
  pubkeyInitOk : Bool
  pubkeyImportOk : List Nat → Bool
  pubkeyExport : List Nat → Option (List Nat)
  hashFast : DigAlgo → List Nat → Option (List Nat)

/-- The method-dispatch switch of `make_certfp` (gnutls.c lines
614-634), including the fallthroughs by which the SPKI cases set
`spki = true` and then share the cert-digest case's algorithm and
length: returns `(algo, len, spki)` for a recognised method and `none`
for the default case. -/
def certfpSelect (method : Int) : Option (DigAlgo × Nat × Bool) :=
  if method = RB_SSL_CERTFP_METH_CERT_SHA1 then
    some (DigAlgo.sha1, RB_SSL_CERTFP_LEN_SHA1, false)
  else if method = RB_SSL_CERTFP_METH_SPKI_SHA256 then
    some (DigAlgo.sha256, RB_SSL_CERTFP_LEN_SHA256, true)
  else if method = RB_SSL_CERTFP_METH_CERT_SHA256 then
    some (DigAlgo.sha256, RB_SSL_CERTFP_LEN_SHA256, false)
  else if method = RB_SSL_CERTFP_METH_SPKI_SHA512 then
    some (DigAlgo.sha512, RB_SSL_CERTFP_LEN_SHA512, true)
  else if method = RB_SSL_CERTFP_METH_CERT_SHA512 then
    some (DigAlgo.sha512, RB_SSL_CERTFP_LEN_SHA512, false)
  else none

/-- The digest-production part of `make_certfp` (gnutls.c lines
636-677): for cert methods, the whole-certificate fingerprint; for SPKI
methods, export the public key to DER via the init/import/export chain
and hash that encoding.  `none` models every failure path, in which the
C code sets `len = 0`. -/
def certfpDigest (eng : CertEngine) (cert : List Nat) (algo : DigAlgo) (spki : Bool) :
    Option (List Nat) :=
  if spki = false then
    eng.crtFingerprint cert algo
  else
    let der : Option (List Nat) :=
      if eng.pubkeyInitOk = true then
        if eng.pubkeyImportOk cert = true then eng.pubkeyExport cert else none
      else none
    match der with
    | none => none
    | some derBytes => eng.hashFast algo derBytes

/-- `make_certfp` (gnutls.c lines 605-682): select algorithm/length by
method (unrecognised methods return 0 immediately); produce the digest;
on any failure `len` becomes 0; finally `memcpy(certfp, digest, len)`
runs only when `len` is nonzero.  Returns the returned length and the
bytes written into the caller's buffer. -/
def make_certfp (eng : CertEngine) (cert : List Nat) (method : Int) : Nat × List Nat :=
  match certfpSelect method with
  | none => (0, [])
  | some sel =>
    match certfpDigest eng cert sel.1 sel.2.2 with
    | none => (0, [])
    | some digest => (sel.2.1, digest.take sel.2.1)

/-- Outcomes of the external calls made by `rb_get_ssl_certfp_file`:
whether `rb_load_file_into_datum_t` succeeds, whether
`gnutls_x509_crt_init` succeeds, and the certificate bytes produced by
the PEM import (`none` models a nonzero `gnutls_x509_crt_import`). -/
structure CertFileEnv where
  loadOk : Bool
  crtInitOk : Bool
  importedCert : Option (List Nat)
deriving DecidableEq

/-- `rb_get_ssl_certfp_file` (gnutls.c lines 717-736): returns -1 when
the file load, the certificate-handle init, or the PEM import fails;
otherwise returns `make_certfp`'s length and bytes. -/
def rb_get_ssl_certfp_file (eng : CertEngine) (fenv : CertFileEnv) (method : Int) :
    Int × List Nat :=
  if fenv.loadOk = false then (-1, [])
  else if fenv.crtInitOk = false then (-1, [])
  else
    match fenv.importedCert with
    | none => (-1, [])
    | some cert =>
      let r := make_certfp eng cert method
      ((r.1 : Int), r.2)

/-- The fixed output length the spec associates with each fingerprint
method (zero for unrecognised methods). -/
def certfpMethodLen (method : Int) : Nat :=
  if method = RB_SSL_CERTFP_METH_CERT_SHA1 then RB_SSL_CERTFP_LEN_SHA1
  else if method = RB_SSL_CERTFP_METH_SPKI_SHA256 then RB_SSL_CERTFP_LEN_SHA256
  else if method = RB_SSL_CERTFP_METH_CERT_SHA256 then RB_SSL_CERTFP_LEN_SHA256
  else if method = RB_SSL_CERTFP_METH_SPKI_SHA512 then RB_SSL_CERTFP_LEN_SHA512
  else if method = RB_SSL_CERTFP_METH_CERT_SHA512 then RB_SSL_CERTFP_LEN_SHA512
  else 0

/-- Engine script in which every handshake step succeeds immediately. -/
def succSteps : Nat → EngineStep := fun _ => ⟨0, 0, false⟩

/-- Engine script: the first handshake call would-blocks (read
direction), every later call succeeds. -/
def wbThenSuccSteps : Nat → EngineStep := fun i =>
  if i = 0 then ⟨GNUTLS_E_AGAIN, 0, false⟩ else ⟨0, 0, false⟩

/-- A session in mid-handshake: accept context present (peer address of
length 4), timer armed, readiness registered, next engine step
succeeds. -/
def accWitnessWorld : World :=
  { fd := { initFd with
      ssl := true, typeSsl := true, sslPriority := true,
      accept := some ⟨4⟩, timerArmed := true, select := some SelFlag.read },
    steps := succSteps, idx := 1, trace := [], crashed := false }

/-- The real call context of `rb_ssl_accept_setup`: a listening
descriptor `F` carrying the pending accept context (and no engine
session — listeners have `F->ssl == NULL`), and a freshly accepted
descriptor `new_F`. -/
def acceptSetupListener : World2 :=
  { F := { initFd with accept := some ⟨0⟩ }, newF := initFd,
    steps := succSteps, idx := 0, trace := [], crashed := false }

/-- Setup environment: loadable valid certificate and key files, but
the certificate file holds 7 chain entries (one more than
`MAX_CERTS`). -/
def overflowSetupEnv : SetupEnv :=
  { certGiven := true, certLoadOk := true, keyLoadOk := true, keyImportOk := true,
    certEntries := 7, pairSetOk := true, dhfileGiven := false, dhInitOk := true,
    dhLoadOk := true, dhImportOk := true, priorityParseOk := true }

/-- Setup environment: valid single-entry chain and key, but a cipher
policy string that fails to parse. -/
def badPrioritySetupEnv : SetupEnv :=
  { overflowSetupEnv with certEntries := 1, priorityParseOk := false }

/-- A certificate engine on which every operation fails. -/
def noopCertEngine : CertEngine :=
  { crtFingerprint := fun _ _ => none, pubkeyInitOk := false,
    pubkeyImportOk := fun _ => false, pubkeyExport := fun _ => none,
    hashFast := fun _ _ => none }

/-! ## Characterization lemmas for the handshake driver and accept flow -/

lemma IsWB_ret_neg {s : EngineStep} (h : IsWB s) : s.ret < 0 := by
  rcases h with ⟨h1, _⟩ | h1 <;> rw [h1] <;> decide

lemma hs1_wb (fd : FdState) (s : EngineStep) (h : IsWB s) :
    do_ssl_handshake1 fd s = (0, { fd with select := some (dirFlag s.dir) }) := by
  unfold do_ssl_handshake1
  rw [if_pos (IsWB_ret_neg h), if_pos h]

lemma hs1_fail (fd : FdState) (s : EngineStep) (h1 : s.ret < 0) (h2 : ¬ IsWB s) :
    do_ssl_handshake1 fd s = (-1, { fd with ssl_errno := s.ret }) := by
  unfold do_ssl_handshake1
  rw [if_pos h1, if_neg h2]

lemma hs1_done (fd : FdState) (s : EngineStep) (h : 0 ≤ s.ret) :
    do_ssl_handshake1 fd s = (1, fd) := by
  unfold do_ssl_handshake1
  rw [if_neg (by omega)]

lemma hs_wb (w : World) (hc : w.crashed = false) (hssl : w.fd.ssl = true)
    (h : IsWB (w.steps w.idx)) :
    do_ssl_handshake w =
      (0, { w with fd := { w.fd with select := some (dirFlag (w.steps w.idx).dir) },
                   idx := w.idx + 1 }) := by
  unfold do_ssl_handshake
  simp [hc, hssl, hs1_wb _ _ h]

lemma hs_fail (w : World) (hc : w.crashed = false) (hssl : w.fd.ssl = true)
    (h1 : (w.steps w.idx).ret < 0) (h2 : ¬ IsWB (w.steps w.idx)) :
    do_ssl_handshake w =
      (-1, { w with fd := { w.fd with ssl_errno := (w.steps w.idx).ret },
                    idx := w.idx + 1 }) := by
  unfold do_ssl_handshake
  simp [hc, hssl, hs1_fail _ _ h1 h2]

lemma hs_done (w : World) (hc : w.crashed = false) (hssl : w.fd.ssl = true)
    (h : 0 ≤ (w.steps w.idx).ret) :
    do_ssl_handshake w = (1, { w with idx := w.idx + 1 }) := by
  unfold do_ssl_handshake
  simp [hc, hssl, hs1_done _ _ h]

lemma tryaccept_wb (w : World) (ad : AcceptData) (hc : w.crashed = false)
    (hssl : w.fd.ssl = true) (ha : w.fd.accept = some ad)
    (h : IsWB (w.steps w.idx)) :
    rb_ssl_tryaccept w =
      { w with fd := { w.fd with select := some (dirFlag (w.steps w.idx).dir) },
               idx := w.idx + 1 } := by
  unfold rb_ssl_tryaccept
  rw [hs_wb w hc hssl h]
  simp [hc, ha]

lemma tryaccept_ok (w : World) (ad : AcceptData) (hc : w.crashed = false)
    (hssl : w.fd.ssl = true) (ha : w.fd.accept = some ad)
    (h : 0 ≤ (w.steps w.idx).ret) :
    rb_ssl_tryaccept w =
      { w with fd := { w.fd with accept := none, timerArmed := false, select := none },
               idx := w.idx + 1,
               trace := w.trace ++ [⟨RbStatus.ok, some ad.addrlen⟩] } := by
  unfold rb_ssl_tryaccept
  rw [hs_done w hc hssl h]
  simp [hc, ha]

lemma tryaccept_fail (w : World) (ad : AcceptData) (hc : w.crashed = false)
    (hssl : w.fd.ssl = true) (ha : w.fd.accept = some ad)
    (h1 : (w.steps w.idx).ret < 0) (h2 : ¬ IsWB (w.steps w.idx)) :
    rb_ssl_tryaccept w =
      { w with
        fd := { w.fd with
          ssl_errno := (w.steps w.idx).ret, accept := none,
          timerArmed := false, select := none },
        idx := w.idx + 1,
        trace := w.trace ++ [⟨RbStatus.errorSsl, none⟩] } := by
  unfold rb_ssl_tryaccept
  rw [hs_fail w hc hssl h1 h2]
  simp [hc, ha]

lemma start_accepted_wb (steps : Nat → EngineStep) (h : IsWB (steps 0)) :
    rb_ssl_start_accepted (startWorld steps) =
      { fd := { typeSsl := true, ssl := true, sslPriority := true, accept := some ⟨0⟩,
                ssl_errno := 0, timerArmed := true, select := some (dirFlag (steps 0).dir) },
        steps := steps, idx := 1, trace := [], crashed := false } := by
  have hlt := IsWB_ret_neg h
  simp [rb_ssl_start_accepted, startWorld, initFd, do_ssl_handshake, do_ssl_handshake1,
        hlt, h]

lemma start_accepted_ok (steps : Nat → EngineStep) (h : 0 ≤ (steps 0).ret) :
    rb_ssl_start_accepted (startWorld steps) =
      { fd := { typeSsl := true, ssl := true, sslPriority := true, accept := none,
                ssl_errno := 0, timerArmed := true, select := none },
        steps := steps, idx := 1, trace := [⟨RbStatus.ok, some 0⟩], crashed := false } := by
  simp [rb_ssl_start_accepted, startWorld, initFd, do_ssl_handshake, do_ssl_handshake1,
        Int.not_lt.mpr h]

lemma start_accepted_fail (steps : Nat → EngineStep) (h1 : (steps 0).ret < 0)
    (h2 : ¬ IsWB (steps 0)) :
    rb_ssl_start_accepted (startWorld steps) =
      { fd := { typeSsl := true, ssl := true, sslPriority := true, accept := none,
                ssl_errno := (steps 0).ret, timerArmed := true, select := none },
        steps := steps, idx := 1, trace := [⟨RbStatus.ok, some 0⟩], crashed := false } := by
  simp [rb_ssl_start_accepted, startWorld, initFd, do_ssl_handshake, do_ssl_handshake1,
        h1, h2]

/-- Invariant of an in-progress accept handshake driven only by
readiness events: the context is intact, readiness is registered, the
timer is armed, no callback has fired, `n + 1` engine steps have been
consumed and all of them were would-block. -/
def ActiveSt (steps : Nat → EngineStep) (n : Nat) (w : World) : Prop :=
  w.crashed = false ∧ w.fd.ssl = true ∧ w.fd.accept = some ⟨0⟩ ∧
  (∃ f, w.fd.select = some f) ∧ w.fd.timerArmed = true ∧
  w.trace = [] ∧ w.idx = n + 1 ∧ w.steps = steps ∧
  (∀ i, i ≤ n → IsWB (steps i))

/-- Terminal state of the accept flow: the context has been consumed,
no readiness registration remains, and exactly one completion callback
fired, with status `RB_OK` or `RB_ERROR_SSL`. -/
def DoneSt (w : World) : Prop :=
  w.crashed = false ∧ w.fd.accept = none ∧ w.fd.select = none ∧
  ∃ e, w.trace = [e] ∧ (e.status = RbStatus.ok ∨ e.status = RbStatus.errorSsl)

lemma ready_of_active (steps : Nat → EngineStep) (n : Nat) (w : World)
    (h : ActiveSt steps n w) :
    ActiveSt steps (n + 1) (stepEv w Ev.ready) ∨ DoneSt (stepEv w Ev.ready) := by
  obtain ⟨hc, hssl, ha, ⟨f, hsel⟩, ht, htr, hidx, hst, hwb⟩ := h
  have hstep : stepEv w Ev.ready =
      rb_ssl_tryaccept { w with fd := { w.fd with select := none } } := by
    simp [stepEv, hc, hsel]
  set w1 : World := { w with fd := { w.fd with select := none } } with hw1
  have hc1 : w1.crashed = false := hc
  have hssl1 : w1.fd.ssl = true := hssl
  have ha1 : w1.fd.accept = some ⟨0⟩ := ha
  have hsteps1 : w1.steps w1.idx = steps (n + 1) := by
    simp [hw1, hst, hidx]
  by_cases hwb1 : IsWB (steps (n + 1))
  · left
    rw [hstep, tryaccept_wb w1 ⟨0⟩ hc1 hssl1 ha1 (by rw [hsteps1]; exact hwb1)]
    refine ⟨hc, hssl, ha, ⟨_, rfl⟩, ht, htr, ?_, hst, ?_⟩
    · simp [hw1, hidx]
    · intro i hi
      rcases Nat.lt_or_ge i (n + 1) with hlt | hge
      · exact hwb i (Nat.lt_succ_iff.mp hlt)
      · have : i = n + 1 := le_antisymm hi hge
        rw [this]; exact hwb1
  · right
    rcases Int.lt_or_le (steps (n + 1)).ret 0 with hneg | hpos
    · rw [hstep, tryaccept_fail w1 ⟨0⟩ hc1 hssl1 ha1 (by rw [hsteps1]; exact hneg)
            (by rw [hsteps1]; exact hwb1)]
      exact ⟨hc, rfl, rfl, ⟨RbStatus.errorSsl, none⟩, by simp [htr], Or.inr rfl⟩
    · rw [hstep, tryaccept_ok w1 ⟨0⟩ hc1 hssl1 ha1 (by rw [hsteps1]; exact hpos)]
      exact ⟨hc, rfl, rfl, ⟨RbStatus.ok, some 0⟩, by simp [htr], Or.inl rfl⟩

lemma ready_of_done (w : World) (h : DoneSt w) : stepEv w Ev.ready = w := by
  obtain ⟨hc, _, hsel, _⟩ := h
  simp [stepEv, hc, hsel]

lemma run_ready_of_done (w : World) (evs : List Ev) (h : DoneSt w)
    (hev : ∀ e ∈ evs, e = Ev.ready) : run w evs = w := by
  induction evs with
  | nil => rfl
  | cons e es ih =>
    have he : e = Ev.ready := hev e (by simp)
    rw [run, he, ready_of_done w h]
    exact ih (fun x hx => hev x (by simp [hx]))

lemma run_ready_of_active (steps : Nat → EngineStep) (evs : List Ev) :
    ∀ (n : Nat) (w : World), (∀ e ∈ evs, e = Ev.ready) → ActiveSt steps n w →
    ActiveSt steps (n + evs.length) (run w evs) ∨ DoneSt (run w evs) := by
  induction evs with
  | nil => intro n w _ h; simpa using Or.inl h
  | cons e es ih =>
    intro n w hev h
    have he : e = Ev.ready := hev e (by simp)
    rw [run, he]
    rcases ready_of_active steps n w h with hA | hD
    · have := ih (n + 1) (stepEv w Ev.ready) (fun x hx => hev x (by simp [hx])) hA
      rcases this with hA2 | hD2
      · left
        have : n + 1 + es.length = n + (e :: es).length := by simp; omega
        rwa [this] at hA2
      · exact Or.inr hD2
    · right
      rw [run_ready_of_done _ es hD (fun x hx => hev x (by simp [hx]))]
      exact hD

lemma accept_run_inv (steps : Nat → EngineStep) (evs : List Ev)
    (hev : ∀ e ∈ evs, e = Ev.ready) :
    ActiveSt steps evs.length (accRun steps evs) ∨ DoneSt (accRun steps evs) := by
  unfold accRun
  by_cases hwb : IsWB (steps 0)
  · have h0 : ActiveSt steps 0 (rb_ssl_start_accepted (startWorld steps)) := by
      rw [start_accepted_wb steps hwb]
      refine ⟨rfl, rfl, rfl, ⟨_, rfl⟩, rfl, rfl, rfl, rfl, ?_⟩
      intro i hi
      have : i = 0 := Nat.le_zero.mp hi
      rw [this]; exact hwb
    have := run_ready_of_active steps evs 0 _ hev h0
    simpa using this
  · have hD : DoneSt (rb_ssl_start_accepted (startWorld steps)) := by
      rcases Int.lt_or_le (steps 0).ret 0 with hneg | hpos
      · rw [start_accepted_fail steps hneg hwb]
        exact ⟨rfl, rfl, rfl, ⟨RbStatus.ok, some 0⟩, rfl, Or.inl rfl⟩
      · rw [start_accepted_ok steps hpos]
        exact ⟨rfl, rfl, rfl, ⟨RbStatus.ok, some 0⟩, rfl, Or.inl rfl⟩
    rw [run_ready_of_done _ evs hD hev]
    exact Or.inr hD

/-! ## Helper lemmas for the fingerprint extractor -/

lemma certfpSelect_len_pos {method : Int} {sel : DigAlgo × Nat × Bool}
    (h : certfpSelect method = some sel) : 0 < sel.2.1 := by
  unfold certfpSelect at h
  split_ifs at h <;> cases h <;> decide

lemma certfpSelect_len_eq {method : Int} {sel : DigAlgo × Nat × Bool}
    (h : certfpSelect method = some sel) : sel.2.1 = certfpMethodLen method := by
  unfold certfpSelect at h
  unfold certfpMethodLen
  split_ifs at h ⊢ <;> cases h <;> rfl

/-! ## Claim theorems -/

/-- C1 (amended): for every server-side TLS session started via
`rb_ssl_start_accepted` and every sequence of would-block results from
the handshake driver across readiness re-invocations, the stored accept
completion callback is invoked at most once, exactly once as soon as
the driver returns a non-would-block result within the delivered
readiness events, and always with status `RB_OK` or `RB_ERROR_SSL` —
provided the accept timeout timer does not fire.  As originally stated
(quantifying also over timer expiry) the claim is false: see the
counterexample, in which the timer fires and a later readiness event
completes the handshake, invoking the callback a second time. -/
theorem rb_ssl_accept_callback_exactly_once (steps : Nat → EngineStep)
    (evs : List Ev) (hev : ∀ e ∈ evs, e = Ev.ready) :
    (accRun steps evs).trace.length ≤ 1 ∧
    (∀ e ∈ (accRun steps evs).trace,
       e.status = RbStatus.ok ∨ e.status = RbStatus.errorSsl) ∧
    ((∃ k, k ≤ evs.length ∧ ¬ IsWB (steps k)) →
       (accRun steps evs).trace.length = 1) := by
  rcases accept_run_inv steps evs hev with hA | hD
  · obtain ⟨_, _, _, _, _, htr, _, _, hwb⟩ := hA
    refine ⟨by simp [htr], by simp [htr], ?_⟩
    rintro ⟨k, hk, hnwb⟩
    exact absurd (hwb k hk) hnwb
  · obtain ⟨_, _, _, e, htr, hst⟩ := hD
    refine ⟨by simp [htr], ?_, fun _ => by simp [htr]⟩
    intro x hx
    rw [htr] at hx
    simp only [List.mem_singleton] at hx
    rw [hx]
    exact hst

/-- Witness for C1: all-success engine script, no external events. -/
theorem rb_ssl_accept_callback_exactly_once_witness :
    (accRun succSteps []).trace.length ≤ 1 ∧
    (∀ e ∈ (accRun succSteps []).trace,
       e.status = RbStatus.ok ∨ e.status = RbStatus.errorSsl) ∧
    ((∃ k, k ≤ ([] : List Ev).length ∧ ¬ IsWB (succSteps k)) →
       (accRun succSteps []).trace.length = 1) :=
  rb_ssl_accept_callback_exactly_once succSteps [] (by simp)

/-- C1 counterexample: the timer fires mid-handshake and a later
readiness event completes the handshake; the completion callback is
invoked twice (`RB_ERR_TIMEOUT`, then `RB_OK`), refuting exactly-once
under timer expiry. -/
theorem rb_ssl_accept_callback_twice_after_timeout :
    (accRun wbThenSuccSteps [Ev.timerFire, Ev.ready]).trace =
      [⟨RbStatus.errTimeout, none⟩, ⟨RbStatus.ok, some 0⟩] ∧
    (accRun wbThenSuccSteps [Ev.timerFire, Ev.ready]).trace.length = 2 := by
  exact ⟨by decide, by decide⟩

/-- C2 (amended): when the accept timeout timer fires before handshake
completion, the completion callback is invoked with `RB_ERR_TIMEOUT`,
but the Accept Context pointer is NOT set to null: `rb_ssl_timeout`
leaves `F->accept` and the readiness registration untouched, so a
readiness event arriving after the timeout re-invokes the handshake
continuation against the still-present context and can invoke the
completion callback again.  The original claim (context nulled before
the callback, late readiness a no-op) is refuted by the
counterexample. -/
theorem rb_ssl_timeout_preserves_accept_context (w : World) (ad : AcceptData)
    (hc : w.crashed = false) (ht : w.fd.timerArmed = true)
    (ha : w.fd.accept = some ad) :
    stepEv w Ev.timerFire =
      { w with fd := { w.fd with timerArmed := false },
               trace := w.trace ++ [⟨RbStatus.errTimeout, none⟩] } := by
  simp [stepEv, rb_ssl_timeout, hc, ht, ha]

/-- Witness for C2 at a concrete mid-handshake session. -/
theorem rb_ssl_timeout_preserves_accept_context_witness :
    stepEv accWitnessWorld Ev.timerFire =
      { accWitnessWorld with
        fd := { accWitnessWorld.fd with timerArmed := false },
        trace := accWitnessWorld.trace ++ [⟨RbStatus.errTimeout, none⟩] } :=
  rb_ssl_timeout_preserves_accept_context accWitnessWorld ⟨4⟩ rfl rfl rfl

/-- C2 counterexample: after the timer fires, the Accept Context is
still present (not nulled) and only the timeout callback has been
delivered; a subsequent readiness event then invokes the completion
callback a second time instead of being a no-op. -/
theorem rb_ssl_timeout_context_not_nulled :
    (accRun wbThenSuccSteps [Ev.timerFire]).fd.accept = some ⟨0⟩ ∧
    (accRun wbThenSuccSteps [Ev.timerFire]).trace = [⟨RbStatus.errTimeout, none⟩] ∧
    (accRun wbThenSuccSteps [Ev.timerFire, Ev.ready]).trace.length = 2 := by
  exact ⟨by decide, by decide, by decide⟩

/-- C3 (code bug): contrary to the claim (and the spec's accept-flow
design), `rb_ssl_accept_setup` does not operate on the new session.
After preparing `new_F` (lines 185-200), lines 201-207 pass `F` — the
listening descriptor — to `gnutls_priority_set(SSL_P(F), ...)`,
`do_ssl_handshake(F, ...)` and the context-consuming completion branch.
Evaluated at the real call context (listener with a pending accept
context and `F->ssl == NULL`), the flow crashes dereferencing the
listener's absent engine session; the new session's cipher priority is
never configured, no handshake step is ever consumed, no completion
callback is delivered, and `new_F`'s accept context (holding the copied
peer address) is left allocated rather than consumed. -/
theorem rb_ssl_accept_setup_operates_on_listener :
    (rb_ssl_accept_setup 16 acceptSetupListener).crashed = true ∧
    (rb_ssl_accept_setup 16 acceptSetupListener).newF.accept = some ⟨16⟩ ∧
    (rb_ssl_accept_setup 16 acceptSetupListener).newF.sslPriority = false ∧
    (rb_ssl_accept_setup 16 acceptSetupListener).idx = 0 ∧
    (rb_ssl_accept_setup 16 acceptSetupListener).trace = [] := by
  exact ⟨by decide, by decide, by decide, by decide, by decide⟩

/-- C4 (amended): when the handshake driver reports completion via a
readiness callback (`rb_ssl_tryaccept`), the timeout timer is
cancelled, the handshake readiness registration is cleared and the
Accept Context pointer is cleared, and the completion callback is then
invoked with `RB_OK` and the stored peer address, after which the
context is freed.  On the first synchronous invocation inside
`rb_ssl_start_accepted`, however, the context is consumed and the
callback invoked with `RB_OK`, but the timer is NOT cancelled (and the
readiness registration is not touched) — see the counterexample. -/
theorem rb_ssl_tryaccept_complete_teardown (w : World) (ad : AcceptData)
    (hc : w.crashed = false) (hssl : w.fd.ssl = true)
    (ha : w.fd.accept = some ad) (h : 0 ≤ (w.steps w.idx).ret) :
    rb_ssl_tryaccept w =
      { w with fd := { w.fd with accept := none, timerArmed := false, select := none },
               idx := w.idx + 1,
               trace := w.trace ++ [⟨RbStatus.ok, some ad.addrlen⟩] } :=
  tryaccept_ok w ad hc hssl ha h

/-- Witness for C4 at a concrete mid-handshake session whose next
engine step succeeds. -/
theorem rb_ssl_tryaccept_complete_teardown_witness :
    rb_ssl_tryaccept accWitnessWorld =
      { accWitnessWorld with
        fd := { accWitnessWorld.fd with
          accept := none, timerArmed := false, select := none },
        idx := accWitnessWorld.idx + 1,
        trace := accWitnessWorld.trace ++ [⟨RbStatus.ok, some 4⟩] } :=
  rb_ssl_tryaccept_complete_teardown accWitnessWorld ⟨4⟩ rfl rfl rfl (by decide)

/-- C4 counterexample: the handshake completes on the first synchronous
invocation inside `rb_ssl_start_accepted`; the callback has fired with
`RB_OK` and the context is consumed, yet the timeout timer is still
armed afterwards — it was not cancelled before the callback was
invoked. -/
theorem rb_ssl_start_accepted_sync_completion_leaves_timer :
    (rb_ssl_start_accepted (startWorld succSteps)).fd.timerArmed = true ∧
    (rb_ssl_start_accepted (startWorld succSteps)).fd.accept = none ∧
    (rb_ssl_start_accepted (startWorld succSteps)).trace = [⟨RbStatus.ok, some 0⟩] := by
  exact ⟨by decide, by decide, by decide⟩

/-- C5: classification of `do_ssl_handshake` results.  A would-block
engine result (`GNUTLS_E_AGAIN`, or `GNUTLS_E_INTERRUPTED` with an
ignorable errno) registers readiness on the direction reported by the
engine (read when the record direction is 0, write otherwise) and
returns 0, leaving the callback trace untouched (the whole remaining
state is unchanged apart from the registration and the consumed step);
any other negative code is stored in `ssl_errno` and -1 is returned; a
non-negative result returns 1.  The continuation registered in the
accept flow is `rb_ssl_tryaccept` (recorded in `fd.select`). -/
theorem do_ssl_handshake_contract (w : World) (hc : w.crashed = false)
    (hssl : w.fd.ssl = true) :
    ((w.steps w.idx).ret = GNUTLS_E_AGAIN ∨
       ((w.steps w.idx).ret = GNUTLS_E_INTERRUPTED ∧ (w.steps w.idx).ign = true) →
     do_ssl_handshake w =
       (0, { w with
         fd := { w.fd with
           select := some (if (w.steps w.idx).dir = 0 then SelFlag.read else SelFlag.write) },
         idx := w.idx + 1 })) ∧
    ((w.steps w.idx).ret < 0 ∧ (w.steps w.idx).ret ≠ GNUTLS_E_AGAIN ∧
       ¬ ((w.steps w.idx).ret = GNUTLS_E_INTERRUPTED ∧ (w.steps w.idx).ign = true) →
     do_ssl_handshake w =
       (-1, { w with
         fd := { w.fd with ssl_errno := (w.steps w.idx).ret },
         idx := w.idx + 1 })) ∧
    (0 ≤ (w.steps w.idx).ret →
     do_ssl_handshake w = (1, { w with idx := w.idx + 1 })) := by
  refine ⟨?_, ?_, ?_⟩
  · intro h
    have hwb : IsWB (w.steps w.idx) := by
      rcases h with h | h
      · exact Or.inr h
      · exact Or.inl h
    rw [hs_wb w hc hssl hwb]
    rfl
  · rintro ⟨hneg, hA, hI⟩
    have hnwb : ¬ IsWB (w.steps w.idx) := by
      rintro (h | h)
      · exact hI h
      · exact hA h
    rw [hs_fail w hc hssl hneg hnwb]
  · intro h
    rw [hs_done w hc hssl h]

/-- Witness for C5: success step at a concrete session. -/
theorem do_ssl_handshake_contract_witness :
    do_ssl_handshake accWitnessWorld =
      (1, { accWitnessWorld with idx := accWitnessWorld.idx + 1 }) :=
  (do_ssl_handshake_contract accWitnessWorld rfl rfl).2.2 (by decide)

/-- C6: for every call to `rb_ssl_read` or `rb_ssl_write`, a negative
engine record-layer result equal to `GNUTLS_E_AGAIN` or
`GNUTLS_E_INTERRUPTED` under an ignorable errno maps to
`RB_RW_SSL_NEED_READ` when the reported record direction is 0 and to
`RB_RW_SSL_NEED_WRITE` otherwise, identically for reads and writes
(independent of the requested direction); every other negative result
maps to `RB_RW_IO_ERROR` with the code stored in `ssl_errno`; every
non-negative result is returned unchanged as the byte count. -/
theorem rb_ssl_read_write_contract (fd : FdState) (s : RwStep) :
    (((s.ret = GNUTLS_E_AGAIN ∨ s.ret = GNUTLS_E_INTERRUPTED) ∧ s.ign = true) →
       rb_ssl_read fd s =
         ((if s.dir = 0 then RB_RW_SSL_NEED_READ else RB_RW_SSL_NEED_WRITE), fd) ∧
       rb_ssl_write fd s =
         ((if s.dir = 0 then RB_RW_SSL_NEED_READ else RB_RW_SSL_NEED_WRITE), fd)) ∧
    ((s.ret < 0 ∧ ¬ ((s.ret = GNUTLS_E_AGAIN ∨ s.ret = GNUTLS_E_INTERRUPTED) ∧ s.ign = true)) →
       rb_ssl_read fd s = (RB_RW_IO_ERROR, { fd with ssl_errno := s.ret }) ∧
       rb_ssl_write fd s = (RB_RW_IO_ERROR, { fd with ssl_errno := s.ret })) ∧
    (0 ≤ s.ret →
       rb_ssl_read fd s = (s.ret, fd) ∧ rb_ssl_write fd s = (s.ret, fd)) := by
  refine ⟨?_, ?_, ?_⟩
  · rintro ⟨hin, hig⟩
    have hlt : s.ret < 0 := by rcases hin with h | h <;> rw [h] <;> decide
    have key : ∀ r : Nat, rb_ssl_read_or_write r fd s =
        ((if s.dir = 0 then RB_RW_SSL_NEED_READ else RB_RW_SSL_NEED_WRITE), fd) := by
      intro r
      unfold rb_ssl_read_or_write
      rw [if_pos hlt, if_pos hin, if_pos hig]
    exact ⟨key 0, key 1⟩
  · rintro ⟨hlt, hn⟩
    have key : ∀ r : Nat, rb_ssl_read_or_write r fd s =
        (RB_RW_IO_ERROR, { fd with ssl_errno := s.ret }) := by
      intro r
      unfold rb_ssl_read_or_write
      by_cases hin : s.ret = GNUTLS_E_AGAIN ∨ s.ret = GNUTLS_E_INTERRUPTED
      · have hig : ¬ (s.ign = true) := fun hig => hn ⟨hin, hig⟩
        rw [if_pos hlt, if_pos hin, if_neg hig]
      · rw [if_pos hlt, if_neg hin]
    exact ⟨key 0, key 1⟩
  · intro h
    have key : ∀ r : Nat, rb_ssl_read_or_write r fd s = (s.ret, fd) := by
      intro r
      unfold rb_ssl_read_or_write
      rw [if_neg (Int.not_lt.mpr h)]
    exact ⟨key 0, key 1⟩

/-- Witness for C6: a would-block on a read call reports the write
direction (the engine's direction, not the requested one), and a
successful write passes its byte count through. -/
theorem rb_ssl_read_write_contract_witness :
    rb_ssl_read initFd ⟨GNUTLS_E_AGAIN, 1, true⟩ = (RB_RW_SSL_NEED_WRITE, initFd) ∧
    rb_ssl_write initFd ⟨7, 0, false⟩ = ((7 : Int), initFd) := by
  constructor
  · have h := ((rb_ssl_read_write_contract initFd ⟨GNUTLS_E_AGAIN, 1, true⟩).1
      ⟨Or.inl rfl, rfl⟩).1
    simpa using h
  · exact ((rb_ssl_read_write_contract initFd ⟨7, 0, false⟩).2.2 (by decide)).2

/-- C7 (amended): if the certificate file contains more entries than the
fixed chain capacity `MAX_CERTS` (6), `rb_setup_ssl_server` returns 0
and installs neither a (partial) chain, nor the chain/key pair, nor DH
parameters, nor a priority policy — but the Credential Store is NOT
left unmodified: the private key has already been imported into
`x509_key` before the capacity check runs, and the chain-count variable
`x509_cert_count` is left set to `MAX_CERTS`.  The original claim (no
credential material installed at all) is refuted by the
counterexample. -/
theorem rb_setup_ssl_server_chain_overflow (env : SetupEnv) (st : CredStore)
    (h1 : env.certGiven = true) (h2 : env.certLoadOk = true)
    (h3 : env.keyLoadOk = true) (h4 : env.keyImportOk = true)
    (h5 : MAX_CERTS < env.certEntries) :
    (rb_setup_ssl_server env st).1 = 0 ∧
    (rb_setup_ssl_server env st).2.1.chainImported = st.chainImported ∧
    (rb_setup_ssl_server env st).2.1.pairSet = st.pairSet ∧
    (rb_setup_ssl_server env st).2.1.dhSet = st.dhSet ∧
    (rb_setup_ssl_server env st).2.1.priority = st.priority ∧
    (rb_setup_ssl_server env st).2.1.x509_key = KeyState.imported ∧
    (rb_setup_ssl_server env st).2.1.x509_cert_count = MAX_CERTS ∧
    (rb_setup_ssl_server env st).2.2 = [LogTag.chainImportErr] := by
  have hr : crt_list_import env.certEntries MAX_CERTS < 0 := by
    unfold crt_list_import
    rw [if_pos h5]
    decide
  simp [rb_setup_ssl_server, h1, h2, h3, h4, hr]

/-- Witness for C7 at the 7-entry chain environment. -/
theorem rb_setup_ssl_server_chain_overflow_witness :
    (rb_setup_ssl_server overflowSetupEnv initStore).1 = 0 ∧
    (rb_setup_ssl_server overflowSetupEnv initStore).2.1.x509_key = KeyState.imported :=
  ⟨(rb_setup_ssl_server_chain_overflow overflowSetupEnv initStore rfl rfl rfl rfl
      (by decide)).1,
   (rb_setup_ssl_server_chain_overflow overflowSetupEnv initStore rfl rfl rfl rfl
      (by decide)).2.2.2.2.2.1⟩

/-- C7 counterexample: at a 7-entry chain the setup returns 0, yet the
Credential Store differs from its pre-setup state — the private key is
imported and the chain-count variable holds `MAX_CERTS` (6). -/
theorem rb_setup_ssl_server_chain_overflow_modifies_store :
    (rb_setup_ssl_server overflowSetupEnv initStore).1 = 0 ∧
    (rb_setup_ssl_server overflowSetupEnv initStore).2.1 ≠ initStore ∧
    (rb_setup_ssl_server overflowSetupEnv initStore).2.1.x509_key = KeyState.imported ∧
    (rb_setup_ssl_server overflowSetupEnv initStore).2.1.x509_cert_count = 6 := by
  exact ⟨by decide, by decide, by decide, by decide⟩

/-- C8: with a valid certificate and key (loadable files, parsable key,
chain within capacity, successful pair install), a cipher policy string
that fails to parse causes `rb_setup_ssl_server` to log the syntax
error, initialize the default priority handle from the engine's
built-in default policy instead, and still return success (1). -/
theorem rb_setup_ssl_server_priority_fallback (env : SetupEnv) (st : CredStore)
    (h1 : env.certGiven = true) (h2 : env.certLoadOk = true)
    (h3 : env.keyLoadOk = true) (h4 : env.keyImportOk = true)
    (h5 : env.certEntries ≤ MAX_CERTS) (h6 : env.pairSetOk = true)
    (h7 : env.priorityParseOk = false) :
    (rb_setup_ssl_server env st).1 = 1 ∧
    (rb_setup_ssl_server env st).2.1.priority = PrioritySetting.builtinDefault ∧
    LogTag.cipherSyntaxErr ∈ (rb_setup_ssl_server env st).2.2 := by
  have hr : ¬ (crt_list_import env.certEntries MAX_CERTS < 0) := by
    unfold crt_list_import
    rw [if_neg (Nat.not_lt.mpr h5)]
    exact Int.not_lt.mpr (Int.ofNat_nonneg _)
  simp [rb_setup_ssl_server, h1, h2, h3, h4, h6, h7, hr]

/-- Witness for C8 at a concrete valid-credentials environment with an
unparsable cipher list. -/
theorem rb_setup_ssl_server_priority_fallback_witness :
    (rb_setup_ssl_server badPrioritySetupEnv initStore).1 = 1 ∧
    (rb_setup_ssl_server badPrioritySetupEnv initStore).2.1.priority =
      PrioritySetting.builtinDefault ∧
    LogTag.cipherSyntaxErr ∈ (rb_setup_ssl_server badPrioritySetupEnv initStore).2.2 :=
  rb_setup_ssl_server_priority_fallback badPrioritySetupEnv initStore rfl rfl rfl rfl
    (by decide) rfl rfl

lemma make_certfp_sel_none (eng : CertEngine) (cert : List Nat) (method : Int)
    (hsel : certfpSelect method = none) : make_certfp eng cert method = (0, []) := by
  unfold make_certfp
  rw [hsel]

lemma make_certfp_dig_none (eng : CertEngine) (cert : List Nat) (method : Int)
    (sel : DigAlgo × Nat × Bool) (hsel : certfpSelect method = some sel)
    (hdig : certfpDigest eng cert sel.1 sel.2.2 = none) :
    make_certfp eng cert method = (0, []) := by
  unfold make_certfp
  rw [hsel]
  simp [hdig]

lemma make_certfp_dig_some (eng : CertEngine) (cert : List Nat) (method : Int)
    (sel : DigAlgo × Nat × Bool) (d : List Nat) (hsel : certfpSelect method = some sel)
    (hdig : certfpDigest eng cert sel.1 sel.2.2 = some d) :
    make_certfp eng cert method = (sel.2.1, d.take sel.2.1) := by
  unfold make_certfp
  rw [hsel]
  simp [hdig]

lemma certfpDigest_fp_none (eng : CertEngine) (cert : List Nat) (algo : DigAlgo)
    (h : eng.crtFingerprint cert algo = none) :
    certfpDigest eng cert algo false = none := by
  unfold certfpDigest
  simp [h]

lemma certfpDigest_export_none (eng : CertEngine) (cert : List Nat) (algo : DigAlgo)
    (h : eng.pubkeyExport cert = none) :
    certfpDigest eng cert algo true = none := by
  unfold certfpDigest
  simp [h]

lemma certfpDigest_hash_none (eng : CertEngine) (cert : List Nat) (algo : DigAlgo)
    (h : ∀ d, eng.hashFast algo d = none) :
    certfpDigest eng cert algo true = none := by
  unfold certfpDigest
  simp only [Bool.true_eq_false, if_false]
  cases hder : (if eng.pubkeyInitOk = true then
      if eng.pubkeyImportOk cert = true then eng.pubkeyExport cert else none
    else none) with
  | none => simp [hder]
  | some d => simp [hder, h d]

/-- C9 (amended): every failure path of `make_certfp` — unrecognised
method, public-key export failure, whole-certificate fingerprint
failure, digest computation failure — yields a returned length of zero
with no bytes written to the output buffer.  The file-based variant
`rb_get_ssl_certfp_file`, however, returns -1 (not a zero length) on
file load, certificate-handle init, or certificate parse failure,
likewise writing no bytes.  The original claim (zero returned also on
the file variant's load/parse failures) is refuted by the
counterexample. -/
theorem certfp_failure_paths_empty (eng : CertEngine) (cert : List Nat)
    (method : Int) (fenv : CertFileEnv) :
    ((method ≠ RB_SSL_CERTFP_METH_CERT_SHA1 ∧ method ≠ RB_SSL_CERTFP_METH_CERT_SHA256 ∧
      method ≠ RB_SSL_CERTFP_METH_CERT_SHA512 ∧ method ≠ RB_SSL_CERTFP_METH_SPKI_SHA256 ∧
      method ≠ RB_SSL_CERTFP_METH_SPKI_SHA512) →
       make_certfp eng cert method = (0, [])) ∧
    ((make_certfp eng cert method).1 = 0 → (make_certfp eng cert method).2 = []) ∧
    (eng.pubkeyExport cert = none →
       make_certfp eng cert RB_SSL_CERTFP_METH_SPKI_SHA256 = (0, []) ∧
       make_certfp eng cert RB_SSL_CERTFP_METH_SPKI_SHA512 = (0, [])) ∧
    (eng.crtFingerprint cert DigAlgo.sha1 = none →
       make_certfp eng cert RB_SSL_CERTFP_METH_CERT_SHA1 = (0, [])) ∧
    (eng.crtFingerprint cert DigAlgo.sha256 = none →
       make_certfp eng cert RB_SSL_CERTFP_METH_CERT_SHA256 = (0, [])) ∧
    (eng.crtFingerprint cert DigAlgo.sha512 = none →
       make_certfp eng cert RB_SSL_CERTFP_METH_CERT_SHA512 = (0, [])) ∧
    ((∀ d, eng.hashFast DigAlgo.sha256 d = none) →
       make_certfp eng cert RB_SSL_CERTFP_METH_SPKI_SHA256 = (0, [])) ∧
    ((∀ d, eng.hashFast DigAlgo.sha512 d = none) →
       make_certfp eng cert RB_SSL_CERTFP_METH_SPKI_SHA512 = (0, [])) ∧
    ((fenv.loadOk = false ∨ fenv.crtInitOk = false ∨ fenv.importedCert = none) →
       rb_get_ssl_certfp_file eng fenv method = (-1, [])) := by
  refine ⟨?_, ?_, ?_, ?_, ?_, ?_, ?_, ?_, ?_⟩
  · rintro ⟨n1, n2, n3, n4, n5⟩
    unfold make_certfp certfpSelect
    rw [if_neg n1, if_neg n4, if_neg n2, if_neg n5, if_neg n3]
  · intro h0
    rcases hsel : certfpSelect method with _ | sel
    · simp [make_certfp_sel_none eng cert method hsel]
    · rcases hdig : certfpDigest eng cert sel.1 sel.2.2 with _ | d
      · simp [make_certfp_dig_none eng cert method sel hsel hdig]
      · exfalso
        rw [make_certfp_dig_some eng cert method sel d hsel hdig] at h0
        simp only [] at h0
        exact absurd h0 (Nat.pos_iff_ne_zero.mp (certfpSelect_len_pos hsel))
  · intro hexp
    exact ⟨make_certfp_dig_none eng cert RB_SSL_CERTFP_METH_SPKI_SHA256
             (DigAlgo.sha256, RB_SSL_CERTFP_LEN_SHA256, true) (by decide)
             (certfpDigest_export_none eng cert DigAlgo.sha256 hexp),
           make_certfp_dig_none eng cert RB_SSL_CERTFP_METH_SPKI_SHA512
             (DigAlgo.sha512, RB_SSL_CERTFP_LEN_SHA512, true) (by decide)
             (certfpDigest_export_none eng cert DigAlgo.sha512 hexp)⟩
  · intro hfp
    exact make_certfp_dig_none eng cert RB_SSL_CERTFP_METH_CERT_SHA1
      (DigAlgo.sha1, RB_SSL_CERTFP_LEN_SHA1, false) (by decide)
      (certfpDigest_fp_none eng cert DigAlgo.sha1 hfp)
  · intro hfp
    exact make_certfp_dig_none eng cert RB_SSL_CERTFP_METH_CERT_SHA256
      (DigAlgo.sha256, RB_SSL_CERTFP_LEN_SHA256, false) (by decide)
      (certfpDigest_fp_none eng cert DigAlgo.sha256 hfp)
  · intro hfp
    exact make_certfp_dig_none eng cert RB_SSL_CERTFP_METH_CERT_SHA512
      (DigAlgo.sha512, RB_SSL_CERTFP_LEN_SHA512, false) (by decide)
      (certfpDigest_fp_none eng cert DigAlgo.sha512 hfp)
  · intro hhf
    exact make_certfp_dig_none eng cert RB_SSL_CERTFP_METH_SPKI_SHA256
      (DigAlgo.sha256, RB_SSL_CERTFP_LEN_SHA256, true) (by decide)
      (certfpDigest_hash_none eng cert DigAlgo.sha256 hhf)
  · intro hhf
    exact make_certfp_dig_none eng cert RB_SSL_CERTFP_METH_SPKI_SHA512
      (DigAlgo.sha512, RB_SSL_CERTFP_LEN_SHA512, true) (by decide)
      (certfpDigest_hash_none eng cert DigAlgo.sha512 hhf)
  · rintro (h | h | h) <;> simp [rb_get_ssl_certfp_file, h]

/-- Witness for C9: an unrecognised method yields the empty result, and
the file variant with a failed certificate parse returns -1. -/
theorem certfp_failure_paths_empty_witness :
    make_certfp noopCertEngine [1, 2, 3] 9 = (0, []) ∧
    rb_get_ssl_certfp_file noopCertEngine ⟨true, true, none⟩
      RB_SSL_CERTFP_METH_CERT_SHA1 = (-1, []) :=
  ⟨(certfp_failure_paths_empty noopCertEngine [1, 2, 3] 9 ⟨true, true, none⟩).1
     (by decide),
   (certfp_failure_paths_empty noopCertEngine [1, 2, 3] 9
      ⟨true, true, none⟩).2.2.2.2.2.2.2.2
     (Or.inr (Or.inr rfl))⟩

/-- C9 counterexample: when the file load fails, the file-based variant
returns -1, not a length of zero as the claim states (no bytes are
written either way). -/
theorem rb_get_ssl_certfp_file_fails_with_minus_one :
    rb_get_ssl_certfp_file noopCertEngine ⟨false, true, none⟩
      RB_SSL_CERTFP_METH_CERT_SHA256 = (-1, []) ∧
    (-1 : Int) ≠ 0 := by
  exact ⟨by decide, by decide⟩

/-- C10: fingerprint extraction is a deterministic function of its
inputs — in this embedding the engine responses are explicit input maps
and `make_certfp` is a pure function, so two invocations on identical
certificate bytes and method return identical length and bytes — and
the returned length is either 0 (failure) or exactly the fixed digest
length the method selects (20 for SHA-1, 32 for SHA-256, 64 for
SHA-512). -/
theorem make_certfp_deterministic_fixed_length (eng : CertEngine)
    (cert : List Nat) (method : Int) :
    make_certfp eng cert method = make_certfp eng cert method ∧
    ((make_certfp eng cert method).1 = 0 ∨
     (make_certfp eng cert method).1 = certfpMethodLen method) := by
  refine ⟨rfl, ?_⟩
  rcases hsel : certfpSelect method with _ | sel
  · rw [make_certfp_sel_none eng cert method hsel]
    exact Or.inl rfl
  · rcases hdig : certfpDigest eng cert sel.1 sel.2.2 with _ | d
    · rw [make_certfp_dig_none eng cert method sel hsel hdig]
      exact Or.inl rfl
    · rw [make_certfp_dig_some eng cert method sel d hsel hdig]
      exact Or.inr (certfpSelect_len_eq hsel)
